import Mathlib

/-!
Verification of the payload decoder and pagination aggregator of the
`simple` support-ticketing CLI.

The definitions below are a shallow embedding of the Go source:
* `decodeActor`, `decodeEntry`, `decodeTimelineEntry` embed
  `TimelineEntry.UnmarshalJSON` and its helper probe structs
  (src/types, the file concatenated into `types_test.go`);
* the actor accessor functions embed the `GetID`/`GetFullName`/`GetEmail`
  methods of the five actor structs;
* `getEntryContent`/`getEntryType` embed the methods of the same names on
  `ThreadsView` (src/ui/app.go);
* `reportRun` embeds the exhaustive pagination walk of `ReportCmd.Run`
  (src/cmd/report.go), with a fuel parameter standing for the number of
  loop iterations allowed (the Go loop is unbounded, so `none` means the
  loop is still running after `fuel` iterations);
* `loadCount` embeds `ThreadCountComponent.loadCount` (the dashboard
  component in src/ui), with the `fmt.Printf` of the `+` character
  modelled as an extra `Bool` in the result.

JSON values are modelled by the inductive `Json`; JSON numbers are
modelled as integers (every number appearing in the claims is integral).
JSON objects are association lists of key/value pairs; Go's
`map[string]interface{}` is modelled by the same association list.
-/

namespace Simple

/-- A JSON value.  Numbers are modelled as integers. -/
inductive Json where
  | null
  | bool (b : Bool)
  | num (n : Int)
  | str (s : String)
  | arr (elems : List Json)
  | obj (fields : List (String × Json))

/-- Look up a key in a JSON object's field list (Go map indexing). -/
def lookupField : List (String × Json) → String → Option Json
  | [], _ => none
  | (k, v) :: rest, key => if k = key then some v else lookupField rest key

/-- Go `string` struct field: absent or `null` leaves the zero value `""`,
a JSON string is taken verbatim, any other shape is an unmarshal error. -/
def parseStringField (fs : List (String × Json)) (k : String) : Except String String :=
  match lookupField fs k with
  | none => .ok ""
  | some .null => .ok ""
  | some (.str s) => .ok s
  | some _ => .error ("cannot unmarshal field " ++ k ++ " into string")

/-- Go `int` (or `float64`) struct field: absent or `null` gives 0, a JSON
number is taken verbatim, any other shape is an unmarshal error. -/
def parseNumField (fs : List (String × Json)) (k : String) : Except String Int :=
  match lookupField fs k with
  | none => .ok 0
  | some .null => .ok 0
  | some (.num n) => .ok n
  | some _ => .error ("cannot unmarshal field " ++ k ++ " into number")

/-- Go `*string` struct field: absent or `null` gives `nil`, a JSON string
gives a non-nil pointer, any other shape is an unmarshal error. -/
def parseOptStringField (fs : List (String × Json)) (k : String) :
    Except String (Option String) :=
  match lookupField fs k with
  | none => .ok none
  | some .null => .ok none
  | some (.str s) => .ok (some s)
  | some _ => .error ("cannot unmarshal field " ++ k ++ " into string pointer")

/-- Go pointer-to-struct field: absent or `null` gives `nil`, otherwise the
value is parsed by `p` (which rejects non-objects). -/
def parseOptField (p : Json → Except String α) (fs : List (String × Json)) (k : String) :
    Except String (Option α) :=
  match lookupField fs k with
  | none => .ok none
  | some .null => .ok none
  | some j =>
    match p j with
    | .error e => .error e
    | .ok v => .ok (some v)

/-- Go `interface{}` struct field: never fails; `null` gives a nil
interface value. -/
def parseAnyField (fs : List (String × Json)) (k : String) : Except String (Option Json) :=
  match lookupField fs k with
  | none => .ok none
  | some .null => .ok none
  | some j => .ok (some j)

/-- `DateTime` (types.go): a wrapper around an ISO-8601 string. -/
structure DateTime where
  iso8601 : String

def parseDateTime : Json → Except String DateTime
  | .obj fs =>
    match parseStringField fs "iso8601" with
    | .error e => .error e
    | .ok s => .ok ⟨s⟩
  | _ => .error "cannot unmarshal into DateTime"

/-- `Email` (types.go). -/
structure Email where
  email : String

def parseEmail : Json → Except String Email
  | .obj fs =>
    match parseStringField fs "email" with
    | .error e => .error e
    | .ok s => .ok ⟨s⟩
  | _ => .error "cannot unmarshal into Email"

/-- `Company` (types.go). -/
structure Company where
  id : String
  name : String
  domain : String
  createdAt : Option DateTime
  updatedAt : Option DateTime

def parseCompany : Json → Except String Company
  | .obj fs =>
    match parseStringField fs "id" with
    | .error e => .error e
    | .ok id =>
      match parseStringField fs "name" with
      | .error e => .error e
      | .ok name =>
        match parseStringField fs "domain" with
        | .error e => .error e
        | .ok domain =>
          match parseOptField parseDateTime fs "createdAt" with
          | .error e => .error e
          | .ok createdAt =>
            match parseOptField parseDateTime fs "updatedAt" with
            | .error e => .error e
            | .ok updatedAt => .ok ⟨id, name, domain, createdAt, updatedAt⟩
  | _ => .error "cannot unmarshal into Company"

/-- `User` (types.go). -/
structure User where
  id : String
  fullName : String
  email : String

def parseUser : Json → Except String User
  | .obj fs =>
    match parseStringField fs "id" with
    | .error e => .error e
    | .ok id =>
      match parseStringField fs "fullName" with
      | .error e => .error e
      | .ok fullName =>
        match parseStringField fs "email" with
        | .error e => .error e
        | .ok email => .ok ⟨id, fullName, email⟩
  | _ => .error "cannot unmarshal into User"

/-- `MachineUser` (types.go). -/
structure MachineUser where
  id : String
  fullName : String
  email : String

def parseMachineUser : Json → Except String MachineUser
  | .obj fs =>
    match parseStringField fs "id" with
    | .error e => .error e
    | .ok id =>
      match parseStringField fs "fullName" with
      | .error e => .error e
      | .ok fullName =>
        match parseStringField fs "email" with
        | .error e => .error e
        | .ok email => .ok ⟨id, fullName, email⟩
  | _ => .error "cannot unmarshal into MachineUser"

/-- `Customer` (types.go). -/
structure Customer where
  id : String
  fullName : String
  email : Option Email
  status : String
  company : Option Company
  createdAt : Option DateTime
  updatedAt : Option DateTime

def parseCustomer : Json → Except String Customer
  | .obj fs =>
    match parseStringField fs "id" with
    | .error e => .error e
    | .ok id =>
      match parseStringField fs "fullName" with
      | .error e => .error e
      | .ok fullName =>
        match parseOptField parseEmail fs "email" with
        | .error e => .error e
        | .ok email =>
          match parseStringField fs "status" with
          | .error e => .error e
          | .ok status =>
            match parseOptField parseCompany fs "company" with
            | .error e => .error e
            | .ok company =>
              match parseOptField parseDateTime fs "createdAt" with
              | .error e => .error e
              | .ok createdAt =>
                match parseOptField parseDateTime fs "updatedAt" with
                | .error e => .error e
                | .ok updatedAt =>
                  .ok ⟨id, fullName, email, status, company, createdAt, updatedAt⟩
  | _ => .error "cannot unmarshal into Customer"

/-- `Customer.GetEmail` (types.go): the nested `email.email`, or `""`. -/
def Customer.getEmail (c : Customer) : String :=
  match c.email with
  | some em => em.email
  | none => ""

/-- The anonymous probe struct used by `TimelineEntry.UnmarshalJSON` to
classify the `actor` payload (types.go). -/
structure ActorProbe where
  user : Option User
  customer : Option Customer
  customerId : Option String
  systemId : Option String
  machineUser : Option MachineUser

/-- Unmarshalling of the actor probe struct.  JSON `null` is a no-op and
leaves every field `nil`; a non-object payload is an unmarshal error. -/
def parseActorProbe : Json → Except String ActorProbe
  | .null => .ok ⟨none, none, none, none, none⟩
  | .obj fs =>
    match parseOptField parseUser fs "user" with
    | .error e => .error e
    | .ok user =>
      match parseOptField parseCustomer fs "customer" with
      | .error e => .error e
      | .ok customer =>
        match parseOptStringField fs "customerId" with
        | .error e => .error e
        | .ok customerId =>
          match parseOptStringField fs "systemId" with
          | .error e => .error e
          | .ok systemId =>
            match parseOptField parseMachineUser fs "machineUser" with
            | .error e => .error e
            | .ok machineUser => .ok ⟨user, customer, customerId, systemId, machineUser⟩
  | _ => .error "cannot unmarshal into actor probe"

/-- `UserActor` (types.go). -/
structure UserActor where
  user : Option User

/-- `CustomerActor` (types.go). -/
structure CustomerActor where
  customer : Option Customer

/-- `DeletedCustomerActor` (types.go). -/
structure DeletedCustomerActor where
  customerId : String

/-- `SystemActor` (types.go). -/
structure SystemActor where
  systemId : String

/-- `MachineUserActor` (types.go). -/
structure MachineUserActor where
  machineUser : Option MachineUser

/-- The `Actor` interface, as the closed set of structs the decoder
actually assigns to it. -/
inductive Actor where
  | user (a : UserActor)
  | customer (a : CustomerActor)
  | deletedCustomer (a : DeletedCustomerActor)
  | system (a : SystemActor)
  | machineUser (a : MachineUserActor)

def UserActor.getID (a : UserActor) : String :=
  match a.user with
  | some u => u.id
  | none => ""

def UserActor.getFullName (a : UserActor) : String :=
  match a.user with
  | some u => u.fullName
  | none => ""

def UserActor.getEmail (a : UserActor) : String :=
  match a.user with
  | some u => u.email
  | none => ""

def CustomerActor.getID (a : CustomerActor) : String :=
  match a.customer with
  | some c => c.id
  | none => ""

def CustomerActor.getFullName (a : CustomerActor) : String :=
  match a.customer with
  | some c => c.fullName
  | none => ""

def CustomerActor.getEmail (a : CustomerActor) : String :=
  match a.customer with
  | some c => c.getEmail
  | none => ""

def DeletedCustomerActor.getID (a : DeletedCustomerActor) : String := a.customerId

def DeletedCustomerActor.getFullName (_ : DeletedCustomerActor) : String :=
  "[Deleted Customer]"

def DeletedCustomerActor.getEmail (_ : DeletedCustomerActor) : String := ""

def SystemActor.getID (a : SystemActor) : String := a.systemId

def SystemActor.getFullName (_ : SystemActor) : String := "System"

def SystemActor.getEmail (_ : SystemActor) : String := ""

def MachineUserActor.getID (a : MachineUserActor) : String :=
  match a.machineUser with
  | some m => m.id
  | none => ""

def MachineUserActor.getFullName (a : MachineUserActor) : String :=
  match a.machineUser with
  | some m => m.fullName
  | none => ""

def MachineUserActor.getEmail (a : MachineUserActor) : String :=
  match a.machineUser with
  | some m => m.email
  | none => ""

def Actor.getID : Actor → String
  | .user a => a.getID
  | .customer a => a.getID
  | .deletedCustomer a => a.getID
  | .system a => a.getID
  | .machineUser a => a.getID

def Actor.getFullName : Actor → String
  | .user a => a.getFullName
  | .customer a => a.getFullName
  | .deletedCustomer a => a.getFullName
  | .system a => a.getFullName
  | .machineUser a => a.getFullName

def Actor.getEmail : Actor → String
  | .user a => a.getEmail
  | .customer a => a.getEmail
  | .deletedCustomer a => a.getEmail
  | .system a => a.getEmail
  | .machineUser a => a.getEmail

/-- The actor-assignment if-chain of `TimelineEntry.UnmarshalJSON`:
precedence User, Customer, CustomerId, SystemId, MachineUser, and a hard
`unknown actor type` failure when no shape matched. -/
def assignActor (p : ActorProbe) : Except String Actor :=
  match p.user with
  | some u => .ok (.user ⟨some u⟩)
  | none =>
    match p.customer with
    | some c => .ok (.customer ⟨some c⟩)
    | none =>
      match p.customerId with
      | some s => .ok (.deletedCustomer ⟨s⟩)
      | none =>
        match p.systemId with
        | some s => .ok (.system ⟨s⟩)
        | none =>
          match p.machineUser with
          | some m => .ok (.machineUser ⟨some m⟩)
          | none => .error "unknown actor type"

/-- The actor part of `TimelineEntry.UnmarshalJSON`: probe, then assign. -/
def decodeActor (j : Json) : Except String Actor :=
  match parseActorProbe j with
  | .error e => .error e
  | .ok p => assignActor p

/-- `EmailParticipant` (types.go). -/
structure EmailParticipant where
  name : String
  email : String

def parseEmailParticipant : Json → Except String EmailParticipant
  | .obj fs =>
    match parseStringField fs "name" with
    | .error e => .error e
    | .ok name =>
      match parseStringField fs "email" with
      | .error e => .error e
      | .ok email => .ok ⟨name, email⟩
  | _ => .error "cannot unmarshal into EmailParticipant"

/-- `FileSize` (types.go); the float fields are modelled as integers. -/
structure FileSize where
  bytes : Int
  kiloBytes : Int
  megaBytes : Int

def parseFileSize : Json → Except String FileSize
  | .obj fs =>
    match parseNumField fs "bytes" with
    | .error e => .error e
    | .ok bytes =>
      match parseNumField fs "kiloBytes" with
      | .error e => .error e
      | .ok kiloBytes =>
        match parseNumField fs "megaBytes" with
        | .error e => .error e
        | .ok megaBytes => .ok ⟨bytes, kiloBytes, megaBytes⟩
  | _ => .error "cannot unmarshal into FileSize"

/-- `Attachment` (types.go). -/
structure Attachment where
  id : String
  fileName : String
  fileSize : Option FileSize
  fileExtension : String
  fileMimeType : String
  type : String
  createdAt : Option DateTime
  updatedAt : Option DateTime

def parseAttachment : Json → Except String Attachment
  | .obj fs =>
    match parseStringField fs "id" with
    | .error e => .error e
    | .ok id =>
      match parseStringField fs "fileName" with
      | .error e => .error e
      | .ok fileName =>
        match parseOptField parseFileSize fs "fileSize" with
        | .error e => .error e
        | .ok fileSize =>
          match parseStringField fs "fileExtension" with
          | .error e => .error e
          | .ok fileExtension =>
            match parseStringField fs "fileMimeType" with
            | .error e => .error e
            | .ok fileMimeType =>
              match parseStringField fs "type" with
              | .error e => .error e
              | .ok type =>
                match parseOptField parseDateTime fs "createdAt" with
                | .error e => .error e
                | .ok createdAt =>
                  match parseOptField parseDateTime fs "updatedAt" with
                  | .error e => .error e
                  | .ok updatedAt =>
                    .ok ⟨id, fileName, fileSize, fileExtension, fileMimeType,
                         type, createdAt, updatedAt⟩
  | _ => .error "cannot unmarshal into Attachment"

/-- One element of a Go `[]*Attachment`: a JSON `null` is a nil pointer. -/
def parseAttachmentPtr : Json → Except String (Option Attachment)
  | .null => .ok none
  | j =>
    match parseAttachment j with
    | .error e => .error e
    | .ok a => .ok (some a)

/-- Go `[]*Attachment` struct field: absent or `null` is a nil slice,
a JSON array is parsed element-wise, any other shape is an error. -/
def parseAttachmentsField (fs : List (String × Json)) (k : String) :
    Except String (Option (List (Option Attachment))) :=
  match lookupField fs k with
  | none => .ok none
  | some .null => .ok none
  | some (.arr xs) =>
    match xs.mapM parseAttachmentPtr with
    | .error e => .error e
    | .ok as => .ok (some as)
  | some _ => .error ("cannot unmarshal field " ++ k ++ " into attachment list")

/-- One element of a Go `[]map[string]interface{}`: JSON `null` is a nil
map (modelled as the empty field list), an object is its field list. -/
def parseRawMapElem : Json → Except String (List (String × Json))
  | .null => .ok []
  | .obj fs => .ok fs
  | _ => .error "cannot unmarshal element into map"

/-- Go `[]map[string]interface{}` struct field. -/
def parseRawMapListField (fs : List (String × Json)) (k : String) :
    Except String (Option (List (List (String × Json)))) :=
  match lookupField fs k with
  | none => .ok none
  | some .null => .ok none
  | some (.arr xs) =>
    match xs.mapM parseRawMapElem with
    | .error e => .error e
    | .ok ms => .ok (some ms)
  | some _ => .error ("cannot unmarshal field " ++ k ++ " into map list")

/-- Go `[]interface{}` struct field (the probe's `components`). -/
def parseOptJsonArrField (fs : List (String × Json)) (k : String) :
    Except String (Option (List Json)) :=
  match lookupField fs k with
  | none => .ok none
  | some .null => .ok none
  | some (.arr xs) => .ok (some xs)
  | some _ => .error ("cannot unmarshal field " ++ k ++ " into array")

/-- `EmailEntry` (types.go). -/
structure EmailEntry where
  emailId : String
  textContent : String
  from' : Option EmailParticipant
  to' : Option EmailParticipant

def parseEmailEntry (fs : List (String × Json)) : Except String EmailEntry :=
  match parseStringField fs "emailId" with
  | .error e => .error e
  | .ok emailId =>
    match parseStringField fs "textContent" with
    | .error e => .error e
    | .ok textContent =>
      match parseOptField parseEmailParticipant fs "from" with
      | .error e => .error e
      | .ok f =>
        match parseOptField parseEmailParticipant fs "to" with
        | .error e => .error e
        | .ok t => .ok ⟨emailId, textContent, f, t⟩

/-- `ChatEntry` (types.go). -/
structure ChatEntry where
  chatId : String
  text : String

def parseChatEntry (fs : List (String × Json)) : Except String ChatEntry :=
  match parseStringField fs "chatId" with
  | .error e => .error e
  | .ok chatId =>
    match parseStringField fs "text" with
    | .error e => .error e
    | .ok text => .ok ⟨chatId, text⟩

/-- `NoteEntry` (types.go). -/
structure NoteEntry where
  noteId : String
  text : String
  markdown : String
  attachments : Option (List (Option Attachment))

def parseNoteEntry (fs : List (String × Json)) : Except String NoteEntry :=
  match parseStringField fs "noteId" with
  | .error e => .error e
  | .ok noteId =>
    match parseStringField fs "text" with
    | .error e => .error e
    | .ok text =>
      match parseStringField fs "markdown" with
      | .error e => .error e
      | .ok markdown =>
        match parseAttachmentsField fs "attachments" with
        | .error e => .error e
        | .ok attachments => .ok ⟨noteId, text, markdown, attachments⟩

/-- `CustomEntry` (types.go). -/
structure CustomEntry where
  externalId : String
  title : String
  type : String
  components : Option (List (List (String × Json)))
  attachments : Option (List (Option Attachment))

def parseCustomEntry (fs : List (String × Json)) : Except String CustomEntry :=
  match parseStringField fs "externalId" with
  | .error e => .error e
  | .ok externalId =>
    match parseStringField fs "title" with
    | .error e => .error e
    | .ok title =>
      match parseStringField fs "type" with
      | .error e => .error e
      | .ok type =>
        match parseRawMapListField fs "components" with
        | .error e => .error e
        | .ok components =>
          match parseAttachmentsField fs "attachments" with
          | .error e => .error e
          | .ok attachments => .ok ⟨externalId, title, type, components, attachments⟩

/-- `SlackMessageEntry` (types.go). -/
structure SlackMessageEntry where
  slackMessageLink : String
  slackWebMessageLink : String
  text : String
  customerId : String
  relatedThread : Option Json
  attachments : Option (List (Option Attachment))
  lastEditedOnSlackAt : Option DateTime
  deletedOnSlackAt : Option DateTime
  reactions : Option (List (List (String × Json)))

def parseSlackMessageEntry (fs : List (String × Json)) : Except String SlackMessageEntry :=
  match parseStringField fs "slackMessageLink" with
  | .error e => .error e
  | .ok slackMessageLink =>
    match parseStringField fs "slackWebMessageLink" with
    | .error e => .error e
    | .ok slackWebMessageLink =>
      match parseStringField fs "text" with
      | .error e => .error e
      | .ok text =>
        match parseStringField fs "customerId" with
        | .error e => .error e
        | .ok customerId =>
          match parseAnyField fs "relatedThread" with
          | .error e => .error e
          | .ok relatedThread =>
            match parseAttachmentsField fs "attachments" with
            | .error e => .error e
            | .ok attachments =>
              match parseOptField parseDateTime fs "lastEditedOnSlackAt" with
              | .error e => .error e
              | .ok lastEditedOnSlackAt =>
                match parseOptField parseDateTime fs "deletedOnSlackAt" with
                | .error e => .error e
                | .ok deletedOnSlackAt =>
                  match parseRawMapListField fs "reactions" with
                  | .error e => .error e
                  | .ok reactions =>
                    .ok ⟨slackMessageLink, slackWebMessageLink, text, customerId,
                         relatedThread, attachments, lastEditedOnSlackAt,
                         deletedOnSlackAt, reactions⟩

/-- `SlackReplyEntry` (types.go); same field set as `SlackMessageEntry`. -/
structure SlackReplyEntry where
  slackMessageLink : String
  slackWebMessageLink : String
  text : String
  customerId : String
  relatedThread : Option Json
  attachments : Option (List (Option Attachment))
  lastEditedOnSlackAt : Option DateTime
  deletedOnSlackAt : Option DateTime
  reactions : Option (List (List (String × Json)))

def parseSlackReplyEntry (fs : List (String × Json)) : Except String SlackReplyEntry :=
  match parseStringField fs "slackMessageLink" with
  | .error e => .error e
  | .ok slackMessageLink =>
    match parseStringField fs "slackWebMessageLink" with
    | .error e => .error e
    | .ok slackWebMessageLink =>
      match parseStringField fs "text" with
      | .error e => .error e
      | .ok text =>
        match parseStringField fs "customerId" with
        | .error e => .error e
        | .ok customerId =>
          match parseAnyField fs "relatedThread" with
          | .error e => .error e
          | .ok relatedThread =>
            match parseAttachmentsField fs "attachments" with
            | .error e => .error e
            | .ok attachments =>
              match parseOptField parseDateTime fs "lastEditedOnSlackAt" with
              | .error e => .error e
              | .ok lastEditedOnSlackAt =>
                match parseOptField parseDateTime fs "deletedOnSlackAt" with
                | .error e => .error e
                | .ok deletedOnSlackAt =>
                  match parseRawMapListField fs "reactions" with
                  | .error e => .error e
                  | .ok reactions =>
                    .ok ⟨slackMessageLink, slackWebMessageLink, text, customerId,
                         relatedThread, attachments, lastEditedOnSlackAt,
                         deletedOnSlackAt, reactions⟩

/-- `ThreadStatusTransitionedEntry` (types.go). -/
structure ThreadStatusTransitionedEntry where
  previousStatus : String
  previousStatusDetail : Option Json
  nextStatus : String
  nextStatusDetail : Option Json

/-- `ThreadPriorityChangedEntry` (types.go). -/
structure ThreadPriorityChangedEntry where
  previousPriority : Int
  nextPriority : Int

/-- `ThreadAssignmentTransitionedEntry` (types.go). -/
structure ThreadAssignmentTransitionedEntry where
  previousAssignee : Option Json
  nextAssignee : Option Json

/-- The `Entry` interface, as the closed set of values the decoder (or the
declared entry structs) can put into it.  `generic` is the raw
`map[string]interface{}` fallback. -/
inductive Entry where
  | email (e : EmailEntry)
  | chat (e : ChatEntry)
  | note (e : NoteEntry)
  | custom (e : CustomEntry)
  | slackMessage (e : SlackMessageEntry)
  | slackReply (e : SlackReplyEntry)
  | statusTransitioned (e : ThreadStatusTransitionedEntry)
  | priorityChanged (e : ThreadPriorityChangedEntry)
  | assignmentTransitioned (e : ThreadAssignmentTransitionedEntry)
  | generic (fields : List (String × Json))

def Entry.isSlackReply : Entry → Bool
  | .slackReply _ => true
  | _ => false

def Entry.isSlackMessage : Entry → Bool
  | .slackMessage _ => true
  | _ => false

/-- The anonymous probe struct used by `TimelineEntry.UnmarshalJSON` to
classify the `entry` payload (types.go). -/
structure EntryProbe where
  emailId : Option String
  textContent : Option String
  from' : Option EmailParticipant
  to' : Option EmailParticipant
  chatId : Option String
  text : Option String
  noteId : Option String
  title : Option String
  components : Option (List Json)
  slackMessageLink : Option String
  slackWebMessageLink : Option String

def parseEntryProbe (fs : List (String × Json)) : Except String EntryProbe :=
  match parseOptStringField fs "emailId" with
  | .error e => .error e
  | .ok emailId =>
    match parseOptStringField fs "textContent" with
    | .error e => .error e
    | .ok textContent =>
      match parseOptField parseEmailParticipant fs "from" with
      | .error e => .error e
      | .ok f =>
        match parseOptField parseEmailParticipant fs "to" with
        | .error e => .error e
        | .ok t =>
          match parseOptStringField fs "chatId" with
          | .error e => .error e
          | .ok chatId =>
            match parseOptStringField fs "text" with
            | .error e => .error e
            | .ok text =>
              match parseOptStringField fs "noteId" with
              | .error e => .error e
              | .ok noteId =>
                match parseOptStringField fs "title" with
                | .error e => .error e
                | .ok title =>
                  match parseOptJsonArrField fs "components" with
                  | .error e => .error e
                  | .ok components =>
                    match parseOptStringField fs "slackMessageLink" with
                    | .error e => .error e
                    | .ok slackMessageLink =>
                      match parseOptStringField fs "slackWebMessageLink" with
                      | .error e => .error e
                      | .ok slackWebMessageLink =>
                        .ok ⟨emailId, textContent, f, t, chatId, text, noteId,
                             title, components, slackMessageLink, slackWebMessageLink⟩

/-- The entry part of `TimelineEntry.UnmarshalJSON`.  `none` stands for an
absent `entry` key (Go: `len(aux.Entry) == 0`); a JSON `null` is the other
"no entry" case.  Discriminators are probed in the fixed order `emailId`,
`chatId`, `noteId`, `title`+`components`, Slack links; the Slack branch
re-inspects the raw payload for a `threadTs` key; anything else becomes a
`generic` entry holding the raw mapping. -/
def decodeEntry : Option Json → Except String (Option Entry)
  | none => .ok none
  | some .null => .ok none
  | some (.obj fs) =>
    match parseEntryProbe fs with
    | .error e => .error e
    | .ok p =>
      if p.emailId.isSome then
        match parseEmailEntry fs with
        | .error e => .error e
        | .ok e => .ok (some (.email e))
      else if p.chatId.isSome then
        match parseChatEntry fs with
        | .error e => .error e
        | .ok e => .ok (some (.chat e))
      else if p.noteId.isSome then
        match parseNoteEntry fs with
        | .error e => .error e
        | .ok e => .ok (some (.note e))
      else if p.title.isSome && p.components.isSome then
        match parseCustomEntry fs with
        | .error e => .error e
        | .ok e => .ok (some (.custom e))
      else if p.slackMessageLink.isSome || p.slackWebMessageLink.isSome then
        if (lookupField fs "threadTs").isSome then
          match parseSlackReplyEntry fs with
          | .error e => .error e
          | .ok e => .ok (some (.slackReply e))
        else
          match parseSlackMessageEntry fs with
          | .error e => .error e
          | .ok e => .ok (some (.slackMessage e))
      else
        .ok (some (.generic fs))
  | some _ => .error "failed to parse entry type"

/-- `TimelineEntry` (types.go). -/
structure TimelineEntry where
  id : String
  timestamp : Option DateTime
  actor : Option Actor
  entry : Option Entry

/-- `TimelineEntry.UnmarshalJSON` (types.go): basic fields, then the actor
probe-and-assign (a missing `actor` key makes the inner `json.Unmarshal`
fail on empty input), then the entry classification. -/
def decodeTimelineEntry : Json → Except String TimelineEntry
  | .obj fs =>
    match parseStringField fs "id" with
    | .error e => .error e
    | .ok id =>
      match parseOptField parseDateTime fs "timestamp" with
      | .error e => .error e
      | .ok timestamp =>
        match lookupField fs "actor" with
        | none => .error "unexpected end of JSON input"
        | some actorRaw =>
          match decodeActor actorRaw with
          | .error e => .error e
          | .ok actor =>
            match decodeEntry (lookupField fs "entry") with
            | .error e => .error e
            | .ok entry => .ok ⟨id, timestamp, some actor, entry⟩
  | _ => .error "cannot unmarshal into TimelineEntry"

/-- `getPriorityString` (src/ui/app.go). -/
def getPriorityString (priority : Int) : String :=
  if priority = 0 then "Urgent"
  else if priority = 1 then "High"
  else if priority = 2 then "Medium"
  else if priority = 3 then "Low"
  else "P" ++ toString priority

/-- Go type assertion `e[k].(string)`: the key must hold a JSON string. -/
def strField (fs : List (String × Json)) (k : String) : Option String :=
  match lookupField fs k with
  | some (.str s) => some s
  | _ => none

/-- `e[k].(string)` combined with the `!= ""` guard used by the content
extractor's candidate-field checks. -/
def nonEmptyStrField (fs : List (String × Json)) (k : String) : Option String :=
  match lookupField fs k with
  | some (.str s) => if s = "" then none else some s
  | _ => none

/-- Go type assertion `e[k].(float64)` (numbers are modelled as `Int`). -/
def numField (fs : List (String × Json)) (k : String) : Option Int :=
  match lookupField fs k with
  | some (.num n) => some n
  | _ => none

/-- Go `_, ok := e[k]`: the key is present (its value may be `null`). -/
def hasKey (fs : List (String × Json)) (k : String) : Bool :=
  (lookupField fs k).isSome

/-- Go `e[k] != nil`: the key is present with a non-`null` value. -/
def hasNonNullKey (fs : List (String × Json)) (k : String) : Bool :=
  match lookupField fs k with
  | some .null => false
  | some _ => true
  | none => false

/-- The assignee-name resolution of `getEntryContent`'s raw branch: a
nested `user.fullName`, else a nested `team.name` suffixed with
`" (Team)"`, else the literal `"None"`. -/
def assigneeName : Option Json → String
  | some (.obj afs) =>
    match lookupField afs "user" with
    | some (.obj ufs) =>
      match strField ufs "fullName" with
      | some n => n
      | none => "None"
    | _ =>
      match lookupField afs "team" with
      | some (.obj tfs) =>
        match strField tfs "name" with
        | some n => n ++ " (Team)"
        | none => "None"
      | _ => "None"
  | _ => "None"

/-- The `map[string]interface{}` branch of `ThreadsView.getEntryContent`
(src/ui/app.go). -/
def genericEntryContent (fs : List (String × Json)) : String :=
  match nonEmptyStrField fs "slackText" with
  | some s => s
  | none =>
  match nonEmptyStrField fs "chatText" with
  | some s => s
  | none =>
  match nonEmptyStrField fs "noteText" with
  | some s => s
  | none =>
  match nonEmptyStrField fs "text" with
  | some s => s
  | none =>
  match nonEmptyStrField fs "textContent" with
  | some s => s
  | none =>
  match nonEmptyStrField fs "markdown" with
  | some s => s
  | none =>
  match nonEmptyStrField fs "title" with
  | some s => s
  | none =>
  match strField fs "previousStatus", strField fs "nextStatus" with
  | some prevStatus, some nextStatus =>
    "Status changed from " ++ prevStatus ++ " to " ++ nextStatus
  | _, _ =>
  match numField fs "previousPriority", numField fs "nextPriority" with
  | some prevPriority, some nextPriority =>
    "Priority changed from " ++ getPriorityString prevPriority ++
      " to " ++ getPriorityString nextPriority
  | _, _ =>
  if hasKey fs "previousAssignee" || hasNonNullKey fs "nextAssignee" then
    "Assignment changed from " ++ assigneeName (lookupField fs "previousAssignee") ++
      " to " ++ assigneeName (lookupField fs "nextAssignee")
  else if fs.isEmpty then ""
  else
    match nonEmptyStrField fs "content" with
    | some s => s
    | none =>
    match nonEmptyStrField fs "message" with
    | some s => s
    | none =>
    match nonEmptyStrField fs "description" with
    | some s => s
    | none =>
    match nonEmptyStrField fs "body" with
    | some s => s
    | none =>
    match nonEmptyStrField fs "value" with
    | some s => s
    | none => ""

/-- `ThreadsView.getEntryContent` (src/ui/app.go). -/
def getEntryContent (entry : TimelineEntry) : String :=
  match entry.entry with
  | none => ""
  | some e =>
    match e with
    | .email e => e.textContent
    | .chat e => e.text
    | .note e => if e.markdown ≠ "" then e.markdown else e.text
    | .slackMessage e => e.text
    | .slackReply e => e.text
    | .custom e => e.title
    | .statusTransitioned e =>
      "Status changed from " ++ e.previousStatus ++ " to " ++ e.nextStatus
    | .priorityChanged e =>
      "Priority changed from " ++ getPriorityString e.previousPriority ++
        " to " ++ getPriorityString e.nextPriority
    | .assignmentTransitioned _ => ""
    | .generic fs => genericEntryContent fs

/-- The `map[string]interface{}` branch of `ThreadsView.getEntryType`
(src/ui/app.go). -/
def genericEntryType (fs : List (String × Json)) : String :=
  if hasKey fs "emailId" then "Email"
  else if hasKey fs "chatId" then "Chat"
  else if hasKey fs "noteId" then "Note"
  else if hasKey fs "slackText" then "Slack"
  else if hasKey fs "chatText" then "Chat"
  else if hasKey fs "noteText" then "Note"
  else if hasKey fs "slackMessageLink" then "Slack"
  else if hasKey fs "slackWebMessageLink" then "Slack"
  else if hasKey fs "previousStatus" then "Status Change"
  else if hasKey fs "previousPriority" then "Priority Change"
  else if hasKey fs "previousAssignee" then "Assignment"
  else if hasKey fs "externalId" then "Custom"
  else if (nonEmptyStrField fs "type").isSome then "Custom"
  else if hasKey fs "title" then "Custom"
  else if hasKey fs "text" then "Message"
  else if hasKey fs "textContent" then "Message"
  else if hasKey fs "markdown" then "Note"
  else "Event"

/-- `ThreadsView.getEntryType` (src/ui/app.go). -/
def getEntryType (entry : TimelineEntry) : String :=
  match entry.entry with
  | none => "Event"
  | some e =>
    match e with
    | .email _ => "Email"
    | .chat _ => "Chat"
    | .note _ => "Note"
    | .slackMessage _ => "Slack"
    | .slackReply _ => "Slack Reply"
    | .custom _ => "Custom"
    | .statusTransitioned _ => "Status Change"
    | .priorityChanged _ => "Priority Change"
    | .assignmentTransitioned _ => "Event"
    | .generic fs => genericEntryType fs

/-- `PageInfo` (types.go). -/
structure PageInfo where
  hasNextPage : Bool
  hasPreviousPage : Bool
  startCursor : String
  endCursor : String

/-- A pagination connection (`ThreadConnection` and friends, types.go).
The edge slice is `Option` because a Go slice can be nil. -/
structure Connection (α : Type) where
  edges : Option (List α)
  pageInfo : PageInfo

/-- The inner pagination loop of `ReportCmd.Run` (src/cmd/report.go,
lines 59-74): while the current page says `hasNextPage`, fetch the next
page with its `endCursor` and append the edges.  The Go loop is unbounded;
`fuel` bounds the number of iterations modelled, and `none` means the loop
was still running when the fuel ran out. -/
def reportLoop (fetch : String → Except String (Connection α)) :
    Nat → List α → Connection α → Option (Except String (List α))
  | 0, _, _ => none
  | fuel + 1, acc, cur =>
    if cur.pageInfo.hasNextPage then
      match fetch cur.pageInfo.endCursor with
      | .error e => some (.error e)
      | .ok next => reportLoop fetch fuel (acc ++ next.edges.getD []) next
    else some (.ok acc)

/-- The exhaustive aggregation of `ReportCmd.Run`: one initial fetch with
the empty cursor, then `reportLoop`. -/
def reportRun (fetch : String → Except String (Connection α)) (fuel : Nat) :
    Option (Except String (List α)) :=
  match fetch "" with
  | .error e => some (.error e)
  | .ok first => reportLoop fetch fuel (first.edges.getD []) first

/-- The concatenation of the edge sequences of pages `i`, `i+1`, ...,
`i+c-1` of an abstract page source, in fetch order. -/
def edgesFrom (pages : Nat → Connection α) : Nat → Nat → List α
  | _, 0 => []
  | i, c + 1 => (pages i).edges.getD [] ++ edgesFrom pages (i + 1) c

/-- `threadCountMsg` (src/ui dashboard): the full result type delivered to
the dashboard — a status, a count and an error string, nothing else. -/
structure threadCountMsg where
  status : String
  count : Nat
  error : String

/-- The sampling loop of `ThreadCountComponent.loadCount`: up to
`remaining` further iterations (Go: `for currentPage < maxPages`), each
requiring a non-empty cursor; a fetch error, a nil connection, a nil edge
slice or `hasNextPage == false` breaks out.  Returns the final count, the
final cursor and the remaining iteration budget (0 exactly when
`currentPage >= maxPages` at exit). -/
def loadCountLoop (fetch : String → Except String (Option (Connection α))) :
    Nat → Nat → String → Nat × String × Nat
  | 0, count, cursor => (count, cursor, 0)
  | remaining + 1, count, cursor =>
    if cursor = "" then (count, cursor, remaining + 1)
    else
      match fetch cursor with
      | .error _ => (count, cursor, remaining + 1)
      | .ok none => (count, cursor, remaining + 1)
      | .ok (some conn) =>
        match conn.edges with
        | none => (count, cursor, remaining + 1)
        | some edges =>
          if conn.pageInfo.hasNextPage then
            loadCountLoop fetch remaining (count + edges.length) conn.pageInfo.endCursor
          else (count + edges.length, conn.pageInfo.endCursor, remaining + 1)

/-- `ThreadCountComponent.loadCount` (src/ui dashboard): one initial fetch,
then up to 2 more sampling fetches (`maxPages = 3`, `currentPage` starts
at 1).  The returned `Bool` models the `fmt.Printf` of a `+` character —
the code's only truncation signal, emitted to stdout, not stored in the
message.  A first-fetch error is reported in the message's `error` field;
an error during the sampling walk is discarded. -/
def loadCount (fetch : String → Except String (Option (Connection α)))
    (status : String) : threadCountMsg × Bool :=
  match fetch "" with
  | .error e => (⟨status, 0, e⟩, false)
  | .ok none => (⟨status, 0, ""⟩, false)
  | .ok (some conn) =>
    match conn.edges with
    | none => (⟨status, 0, ""⟩, false)
    | some edges =>
      if conn.pageInfo.hasNextPage then
        match loadCountLoop fetch 2 edges.length conn.pageInfo.endCursor with
        | (count, cursor, remaining) =>
          (⟨status, count, ""⟩, !(cursor == "") && (remaining == 0))
      else (⟨status, edges.length, ""⟩, false)

/-- A two-page source used to witness the exhaustive-aggregation theorem. -/
def pagesW : Nat → Connection Nat := fun i =>
  if i = 0 then ⟨some [10], ⟨true, false, "", "cursor1"⟩⟩
  else ⟨some [20], ⟨false, false, "", ""⟩⟩

/-- The fetch function of the two-page witness source. -/
def fetchW : String → Except String (Connection Nat) := fun c =>
  if c = "" then .ok (pagesW 0) else .ok (pagesW 1)

/-- An upstream whose every page reports `hasNextPage = true` with an empty
`endCursor` string. -/
def emptyCursorFetch : String → Except String (Connection Nat) :=
  fun _ => .ok ⟨some [], ⟨true, false, "", ""⟩⟩

/-- A source with more than 3 pages (every page advertises a further one);
the first three pages have 2, 1 and 3 edges. -/
def fetchC4 : String → Except String (Option (Connection Nat)) := fun c =>
  if c = "" then .ok (some ⟨some [1, 2], ⟨true, false, "", "a"⟩⟩)
  else if c = "a" then .ok (some ⟨some [3], ⟨true, false, "", "b"⟩⟩)
  else if c = "b" then .ok (some ⟨some [4, 5, 6], ⟨true, false, "", "c"⟩⟩)
  else .ok (some ⟨some [9], ⟨true, false, "", "z"⟩⟩)

/-- A source whose first page succeeds (2 edges, more pages advertised) and
whose every later fetch fails. -/
def fetchC10 : String → Except String (Option (Connection Nat)) := fun c =>
  if c = "" then .ok (some ⟨some [7, 8], ⟨true, false, "", "a"⟩⟩)
  else .error "network down"

/-- The candidate field names consulted by `getEntryContent` and
`getEntryType` on a generic entry. -/
def extractorKeys : List String :=
  ["emailId", "chatId", "noteId", "slackText", "chatText", "noteText",
   "slackMessageLink", "slackWebMessageLink", "previousStatus", "nextStatus",
   "previousPriority", "nextPriority", "previousAssignee", "nextAssignee",
   "externalId", "type", "title", "text", "textContent", "markdown",
   "content", "message", "description", "body", "value"]

/-- C1: actor decoding is deterministic and applies the fixed precedence
User, Customer, CustomerId, SystemId, MachineUser.  A probed `user` object
yields `UserActor` (whatever else is present) with identity/name/email
taken from it; `customer` (with no `user`) yields `CustomerActor` with the
nested `customer.email.email`; `customerId` yields `DeletedCustomerActor`
named `[Deleted Customer]` with empty email; `systemId` yields
`SystemActor` named `System` with empty email; `machineUser` yields
`MachineUserActor` with its fields; and a payload matching none of the
five shapes fails with the `unknown actor type` error. -/
theorem actor_decode_precedence (j : Json) (p : ActorProbe)
    (hp : parseActorProbe j = .ok p) :
    (∀ u, p.user = some u →
      decodeActor j = .ok (.user ⟨some u⟩) ∧
      (Actor.user ⟨some u⟩).getID = u.id ∧
      (Actor.user ⟨some u⟩).getFullName = u.fullName ∧
      (Actor.user ⟨some u⟩).getEmail = u.email) ∧
    (∀ c, p.user = none → p.customer = some c →
      decodeActor j = .ok (.customer ⟨some c⟩) ∧
      (Actor.customer ⟨some c⟩).getID = c.id ∧
      (Actor.customer ⟨some c⟩).getFullName = c.fullName ∧
      ∀ em, c.email = some em → (Actor.customer ⟨some c⟩).getEmail = em.email) ∧
    (∀ s, p.user = none → p.customer = none → p.customerId = some s →
      decodeActor j = .ok (.deletedCustomer ⟨s⟩) ∧
      (Actor.deletedCustomer ⟨s⟩).getID = s ∧
      (Actor.deletedCustomer ⟨s⟩).getFullName = "[Deleted Customer]" ∧
      (Actor.deletedCustomer ⟨s⟩).getEmail = "") ∧
    (∀ s, p.user = none → p.customer = none → p.customerId = none →
      p.systemId = some s →
      decodeActor j = .ok (.system ⟨s⟩) ∧
      (Actor.system ⟨s⟩).getID = s ∧
      (Actor.system ⟨s⟩).getFullName = "System" ∧
      (Actor.system ⟨s⟩).getEmail = "") ∧
    (∀ m, p.user = none → p.customer = none → p.customerId = none →
      p.systemId = none → p.machineUser = some m →
      decodeActor j = .ok (.machineUser ⟨some m⟩) ∧
      (Actor.machineUser ⟨some m⟩).getID = m.id ∧
      (Actor.machineUser ⟨some m⟩).getFullName = m.fullName ∧
      (Actor.machineUser ⟨some m⟩).getEmail = m.email) ∧
    (p.user = none → p.customer = none → p.customerId = none →
      p.systemId = none → p.machineUser = none →
      decodeActor j = .error "unknown actor type") := by
  have hd : decodeActor j = assignActor p := by
    unfold decodeActor
    rw [hp]
  refine ⟨?_, ?_, ?_, ?_, ?_, ?_⟩
  · intro u hu
    rw [hd]
    unfold assignActor
    rw [hu]
    exact ⟨rfl, rfl, rfl, rfl⟩
  · intro c h1 h2
    rw [hd]
    unfold assignActor
    rw [h1, h2]
    refine ⟨rfl, rfl, rfl, ?_⟩
    intro em hem
    simp [Actor.getEmail, CustomerActor.getEmail, Customer.getEmail, hem]
  · intro s h1 h2 h3
    rw [hd]
    unfold assignActor
    rw [h1, h2, h3]
    exact ⟨rfl, rfl, rfl, rfl⟩
  · intro s h1 h2 h3 h4
    rw [hd]
    unfold assignActor
    rw [h1, h2, h3, h4]
    exact ⟨rfl, rfl, rfl, rfl⟩
  · intro m h1 h2 h3 h4 h5
    rw [hd]
    unfold assignActor
    rw [h1, h2, h3, h4, h5]
    exact ⟨rfl, rfl, rfl, rfl⟩
  · intro h1 h2 h3 h4 h5
    rw [hd]
    unfold assignActor
    rw [h1, h2, h3, h4, h5]

/-- Witness for C1: the spec's own example payload
`{"machineUser": {"id": "m1", "fullName": "Bot", "email": "b@x"}}`. -/
theorem actor_decode_precedence_witness :
    decodeActor (.obj [("machineUser",
        .obj [("id", .str "m1"), ("fullName", .str "Bot"), ("email", .str "b@x")])]) =
      .ok (.machineUser ⟨some ⟨"m1", "Bot", "b@x"⟩⟩) ∧
    (Actor.machineUser ⟨some ⟨"m1", "Bot", "b@x"⟩⟩).getID = "m1" ∧
    (Actor.machineUser ⟨some ⟨"m1", "Bot", "b@x"⟩⟩).getFullName = "Bot" ∧
    (Actor.machineUser ⟨some ⟨"m1", "Bot", "b@x"⟩⟩).getEmail = "b@x" :=
  (actor_decode_precedence
      (.obj [("machineUser",
        .obj [("id", .str "m1"), ("fullName", .str "Bot"), ("email", .str "b@x")])])
      ⟨none, none, none, none, some ⟨"m1", "Bot", "b@x"⟩⟩
      rfl).2.2.2.2.1 ⟨"m1", "Bot", "b@x"⟩ rfl rfl rfl rfl rfl

/-- C9: a chosen discriminator object that is present but misses its
nested fields decodes with no error into a variant with zero-value
fields, whose accessors all return the empty string. -/
theorem actor_partial_object_zero_values (ufs : List (String × Json))
    (h1 : lookupField ufs "id" = none)
    (h2 : lookupField ufs "fullName" = none)
    (h3 : lookupField ufs "email" = none) :
    decodeActor (.obj [("user", .obj ufs)]) = .ok (.user ⟨some ⟨"", "", ""⟩⟩) ∧
    (Actor.user ⟨some ⟨"", "", ""⟩⟩).getID = "" ∧
    (Actor.user ⟨some ⟨"", "", ""⟩⟩).getFullName = "" ∧
    (Actor.user ⟨some ⟨"", "", ""⟩⟩).getEmail = "" := by
  have hu : parseUser (.obj ufs) = .ok ⟨"", "", ""⟩ := by
    simp only [parseUser, parseStringField, h1, h2, h3]
  have hp : parseActorProbe (.obj [("user", .obj ufs)]) =
      .ok ⟨some ⟨"", "", ""⟩, none, none, none, none⟩ := by
    simp [parseActorProbe, parseOptField, parseOptStringField, lookupField, hu]
  refine ⟨?_, rfl, rfl, rfl⟩
  unfold decodeActor
  rw [hp]
  rfl

/-- Witness for C9: the concrete payload `{"user": {}}`. -/
theorem actor_partial_object_zero_values_witness :
    decodeActor (.obj [("user", .obj [])]) = .ok (.user ⟨some ⟨"", "", ""⟩⟩) ∧
    (Actor.user ⟨some ⟨"", "", ""⟩⟩).getID = "" ∧
    (Actor.user ⟨some ⟨"", "", ""⟩⟩).getFullName = "" ∧
    (Actor.user ⟨some ⟨"", "", ""⟩⟩).getEmail = "" :=
  actor_partial_object_zero_values [] rfl rfl rfl

/-- Counterexample to C2 as stated: entry decoding can fail.  The payload
`{"emailId": 5}` (a number where the probe expects a string) makes the
decoder return an error instead of an entry. -/
theorem entry_decode_can_fail :
    decodeEntry (some (.obj [("emailId", .num 5)])) =
      .error "cannot unmarshal field emailId into string pointer" := rfl

/-- C2 (amended): entry decoding never fails on payloads whose probed
fields are well-shaped.  A null or absent payload is "no entry"; a
non-object payload fails with a parse error; the discriminators are
probed in the order `emailId`, `chatId`, `noteId`, `title` with
`components`, Slack links, and each branch whose strict parse succeeds
yields its typed variant (the Slack branch yields a reply when a
`threadTs` key is present and a message otherwise); and a payload
matching no discriminator is always retained as a `generic` entry,
never an error. -/
theorem entry_decode_spec :
    (decodeEntry none = .ok none ∧ decodeEntry (some .null) = .ok none) ∧
    (∀ j, j ≠ .null → (∀ fs, j ≠ .obj fs) →
      decodeEntry (some j) = .error "failed to parse entry type") ∧
    (∀ fs p, parseEntryProbe fs = .ok p →
      ((∀ e, p.emailId.isSome = true → parseEmailEntry fs = .ok e →
          decodeEntry (some (.obj fs)) = .ok (some (.email e))) ∧
       (∀ e, p.emailId = none → p.chatId.isSome = true →
          parseChatEntry fs = .ok e →
          decodeEntry (some (.obj fs)) = .ok (some (.chat e))) ∧
       (∀ e, p.emailId = none → p.chatId = none → p.noteId.isSome = true →
          parseNoteEntry fs = .ok e →
          decodeEntry (some (.obj fs)) = .ok (some (.note e))) ∧
       (∀ e, p.emailId = none → p.chatId = none → p.noteId = none →
          p.title.isSome = true → p.components.isSome = true →
          parseCustomEntry fs = .ok e →
          decodeEntry (some (.obj fs)) = .ok (some (.custom e))) ∧
       (∀ e, p.emailId = none → p.chatId = none → p.noteId = none →
          (p.title = none ∨ p.components = none) →
          (p.slackMessageLink.isSome || p.slackWebMessageLink.isSome) = true →
          (lookupField fs "threadTs").isSome = true →
          parseSlackReplyEntry fs = .ok e →
          decodeEntry (some (.obj fs)) = .ok (some (.slackReply e))) ∧
       (∀ e, p.emailId = none → p.chatId = none → p.noteId = none →
          (p.title = none ∨ p.components = none) →
          (p.slackMessageLink.isSome || p.slackWebMessageLink.isSome) = true →
          (lookupField fs "threadTs").isSome = false →
          parseSlackMessageEntry fs = .ok e →
          decodeEntry (some (.obj fs)) = .ok (some (.slackMessage e))) ∧
       (p.emailId = none → p.chatId = none → p.noteId = none →
          (p.title = none ∨ p.components = none) →
          p.slackMessageLink = none → p.slackWebMessageLink = none →
          decodeEntry (some (.obj fs)) = .ok (some (.generic fs))))) := by
  refine ⟨⟨rfl, rfl⟩, ?_, ?_⟩
  · intro j h1 h2
    cases j with
    | null => exact absurd rfl h1
    | obj fs => exact absurd rfl (h2 fs)
    | bool b => rfl
    | num n => rfl
    | str s => rfl
    | arr xs => rfl
  · intro fs p hp
    refine ⟨?_, ?_, ?_, ?_, ?_, ?_, ?_⟩
    · intro e h1 h2
      simp [decodeEntry, hp, h1, h2]
    · intro e h1 h2 h3
      simp [decodeEntry, hp, h1, h2, h3]
    · intro e h1 h2 h3 h4
      simp [decodeEntry, hp, h1, h2, h3, h4]
    · intro e h1 h2 h3 h4 h5 h6
      simp [decodeEntry, hp, h1, h2, h3, h4, h5, h6]
    · intro e h1 h2 h3 h4 h5 hts hpr
      have h4' : (p.title.isSome && p.components.isSome) = false := by
        rcases h4 with h | h <;> simp [h]
      simp [decodeEntry, hp, h1, h2, h3, h4', h5, hts, hpr]
    · intro e h1 h2 h3 h4 h5 hts hpm
      have h4' : (p.title.isSome && p.components.isSome) = false := by
        rcases h4 with h | h <;> simp [h]
      simp [decodeEntry, hp, h1, h2, h3, h4', h5, hts, hpm]
    · intro h1 h2 h3 h4 h5 h6
      have h4' : (p.title.isSome && p.components.isSome) = false := by
        rcases h4 with h | h <;> simp [h]
      simp [decodeEntry, hp, h1, h2, h3, h4', h5, h6]

/-- Witness for C2 (amended): the unrecognized object `{"foo": "bar"}`
decodes to a generic entry; the Slack payloads
`{"slackMessageLink": "M", "threadTs": "2"}` and
`{"slackWebMessageLink": "W"}` decode successfully to a reply and a
message; and the non-object payload `5` fails with the parse error. -/
theorem entry_decode_spec_witness :
    decodeEntry (some (.obj [("foo", .str "bar")])) =
      .ok (some (.generic [("foo", .str "bar")])) ∧
    decodeEntry (some (.obj [("slackMessageLink", .str "M"), ("threadTs", .str "2")])) =
      .ok (some (.slackReply ⟨"M", "", "", "", none, none, none, none, none⟩)) ∧
    decodeEntry (some (.obj [("slackWebMessageLink", .str "W")])) =
      .ok (some (.slackMessage ⟨"", "W", "", "", none, none, none, none, none⟩)) ∧
    decodeEntry (some (.num 5)) = .error "failed to parse entry type" :=
  ⟨((entry_decode_spec.2.2 [("foo", .str "bar")]
      ⟨none, none, none, none, none, none, none, none, none, none, none⟩
      rfl).2.2.2.2.2.2) rfl rfl rfl (Or.inl rfl) rfl rfl,
    ((entry_decode_spec.2.2 [("slackMessageLink", .str "M"), ("threadTs", .str "2")]
      ⟨none, none, none, none, none, none, none, none, none, some "M", none⟩
      rfl).2.2.2.2.1) ⟨"M", "", "", "", none, none, none, none, none⟩
      rfl rfl rfl (Or.inl rfl) rfl rfl rfl,
    ((entry_decode_spec.2.2 [("slackWebMessageLink", .str "W")]
      ⟨none, none, none, none, none, none, none, none, none, none, some "W"⟩
      rfl).2.2.2.2.2.1) ⟨"", "W", "", "", none, none, none, none, none⟩
      rfl rfl rfl (Or.inl rfl) rfl rfl rfl,
    entry_decode_spec.2.1 (.num 5) (fun h => nomatch h) (fun _ h => nomatch h)⟩

/-- Counterexample to C7 as stated: the object `{"from": 3}` matches no
typed discriminator, yet decoding fails (the probe's `from` field expects
an object). -/
theorem generic_entry_roundtrip_can_fail :
    decodeEntry (some (.obj [("from", .num 3)])) =
      .error "cannot unmarshal into EmailParticipant" := rfl

/-- C7 (amended): for every entry payload that is a JSON object matching
no typed discriminator and whose probed fields are well-shaped, decoding
succeeds and the resulting generic entry stores the original key/value
mapping verbatim, so re-serializing it reproduces the original payload. -/
theorem generic_entry_roundtrip (fs : List (String × Json)) (p : EntryProbe)
    (hp : parseEntryProbe fs = .ok p)
    (h1 : p.emailId = none) (h2 : p.chatId = none) (h3 : p.noteId = none)
    (h4 : p.title = none ∨ p.components = none)
    (h5 : p.slackMessageLink = none) (h6 : p.slackWebMessageLink = none) :
    decodeEntry (some (.obj fs)) = .ok (some (.generic fs)) := by
  have h4' : (p.title.isSome && p.components.isSome) = false := by
    rcases h4 with h | h <;> simp [h]
  simp [decodeEntry, hp, h1, h2, h3, h4', h5, h6]

/-- Witness for C7 (amended): `{"customProp": 7, "another": null}` decodes
to a generic entry holding exactly those two fields. -/
theorem generic_entry_roundtrip_witness :
    decodeEntry (some (.obj [("customProp", .num 7), ("another", .null)])) =
      .ok (some (.generic [("customProp", .num 7), ("another", .null)])) :=
  generic_entry_roundtrip [("customProp", .num 7), ("another", .null)]
    ⟨none, none, none, none, none, none, none, none, none, none, none⟩
    rfl rfl rfl rfl (Or.inl rfl) rfl rfl

/-- C6: for a Slack-shaped entry payload (no earlier discriminator, either
Slack link field present), a successful decode yields `SlackReplyEntry`
exactly when the raw payload has a `threadTs` key, and `SlackMessageEntry`
exactly when it does not. -/
theorem slack_threadTs_disambiguation (fs : List (String × Json)) (p : EntryProbe)
    (hp : parseEntryProbe fs = .ok p)
    (h1 : p.emailId = none) (h2 : p.chatId = none) (h3 : p.noteId = none)
    (h4 : p.title = none ∨ p.components = none)
    (h5 : (p.slackMessageLink.isSome || p.slackWebMessageLink.isSome) = true) :
    ∀ e, decodeEntry (some (.obj fs)) = .ok (some e) →
      e.isSlackReply = (lookupField fs "threadTs").isSome ∧
      e.isSlackMessage = !(lookupField fs "threadTs").isSome := by
  intro e he
  have h4' : (p.title.isSome && p.components.isSome) = false := by
    rcases h4 with h | h <;> simp [h]
  simp only [decodeEntry, hp, h1, h2, h3, h4', h5, Option.isSome_none,
    Bool.false_eq_true, if_false, if_true] at he
  rcases hts : (lookupField fs "threadTs").isSome with _ | _ <;>
    rw [hts] at he
  · rcases hm : parseSlackMessageEntry fs with e' | m <;> rw [hm] at he
    · exact absurd he (by simp)
    · have : Entry.slackMessage m = e := by
        simpa using he
      subst this
      exact ⟨rfl, rfl⟩
  · rcases hr : parseSlackReplyEntry fs with e' | r <;> rw [hr] at he
    · exact absurd he (by simp)
    · have : Entry.slackReply r = e := by
        simpa using he
      subst this
      exact ⟨rfl, rfl⟩

/-- Witness for C6: `{"slackMessageLink": "L", "threadTs": "1"}` decodes
to a Slack reply and `{"slackWebMessageLink": "L"}` to a Slack message;
the theorem classifies both decodes. -/
theorem slack_threadTs_disambiguation_witness :
    ((Entry.slackReply ⟨"L", "", "", "", none, none, none, none, none⟩).isSlackReply =
        (lookupField [("slackMessageLink", .str "L"), ("threadTs", .str "1")] "threadTs").isSome ∧
      (Entry.slackReply ⟨"L", "", "", "", none, none, none, none, none⟩).isSlackMessage =
        !(lookupField [("slackMessageLink", .str "L"), ("threadTs", .str "1")] "threadTs").isSome) ∧
    ((Entry.slackMessage ⟨"", "L", "", "", none, none, none, none, none⟩).isSlackReply =
        (lookupField [("slackWebMessageLink", .str "L")] "threadTs").isSome ∧
      (Entry.slackMessage ⟨"", "L", "", "", none, none, none, none, none⟩).isSlackMessage =
        !(lookupField [("slackWebMessageLink", .str "L")] "threadTs").isSome) :=
  ⟨slack_threadTs_disambiguation
      [("slackMessageLink", .str "L"), ("threadTs", .str "1")]
      ⟨none, none, none, none, none, none, none, none, none, some "L", none⟩
      rfl rfl rfl rfl (Or.inl rfl) rfl
      (Entry.slackReply ⟨"L", "", "", "", none, none, none, none, none⟩) rfl,
    slack_threadTs_disambiguation
      [("slackWebMessageLink", .str "L")]
      ⟨none, none, none, none, none, none, none, none, none, none, some "L"⟩
      rfl rfl rfl rfl (Or.inl rfl) rfl
      (Entry.slackMessage ⟨"", "L", "", "", none, none, none, none, none⟩) rfl⟩

/-- C8: content extraction is total over decoded entries.  An absent entry
yields the empty string and category `Event`; a generic entry containing
none of the candidate fields yields the empty string and `Event`; and the
entry payload `{"previousStatus": "TODO", "nextStatus": "DONE"}` decodes
to a generic entry with category `Status Change` and content
`Status changed from TODO to DONE`. -/
theorem content_extraction_total :
    (∀ te : TimelineEntry, te.entry = none →
      getEntryContent te = "" ∧ getEntryType te = "Event") ∧
    (∀ fs, (∀ k ∈ extractorKeys, lookupField fs k = none) →
      getEntryContent ⟨"", none, none, some (.generic fs)⟩ = "" ∧
      getEntryType ⟨"", none, none, some (.generic fs)⟩ = "Event") ∧
    (decodeEntry (some (.obj [("previousStatus", .str "TODO"), ("nextStatus", .str "DONE")])) =
        .ok (some (.generic [("previousStatus", .str "TODO"), ("nextStatus", .str "DONE")])) ∧
      getEntryType ⟨"", none, none,
        some (.generic [("previousStatus", .str "TODO"), ("nextStatus", .str "DONE")])⟩ =
        "Status Change" ∧
      getEntryContent ⟨"", none, none,
        some (.generic [("previousStatus", .str "TODO"), ("nextStatus", .str "DONE")])⟩ =
        "Status changed from TODO to DONE") := by
  refine ⟨?_, ?_, rfl, rfl, rfl⟩
  · intro te h
    unfold getEntryContent getEntryType
    rw [h]
    exact ⟨rfl, rfl⟩
  · intro fs h
    have k01 : lookupField fs "emailId" = none := h _ (by decide)
    have k02 : lookupField fs "chatId" = none := h _ (by decide)
    have k03 : lookupField fs "noteId" = none := h _ (by decide)
    have k04 : lookupField fs "slackText" = none := h _ (by decide)
    have k05 : lookupField fs "chatText" = none := h _ (by decide)
    have k06 : lookupField fs "noteText" = none := h _ (by decide)
    have k07 : lookupField fs "slackMessageLink" = none := h _ (by decide)
    have k08 : lookupField fs "slackWebMessageLink" = none := h _ (by decide)
    have k09 : lookupField fs "previousStatus" = none := h _ (by decide)
    have k10 : lookupField fs "nextStatus" = none := h _ (by decide)
    have k11 : lookupField fs "previousPriority" = none := h _ (by decide)
    have k12 : lookupField fs "nextPriority" = none := h _ (by decide)
    have k13 : lookupField fs "previousAssignee" = none := h _ (by decide)
    have k14 : lookupField fs "nextAssignee" = none := h _ (by decide)
    have k15 : lookupField fs "externalId" = none := h _ (by decide)
    have k16 : lookupField fs "type" = none := h _ (by decide)
    have k17 : lookupField fs "title" = none := h _ (by decide)
    have k18 : lookupField fs "text" = none := h _ (by decide)
    have k19 : lookupField fs "textContent" = none := h _ (by decide)
    have k20 : lookupField fs "markdown" = none := h _ (by decide)
    have k21 : lookupField fs "content" = none := h _ (by decide)
    have k22 : lookupField fs "message" = none := h _ (by decide)
    have k23 : lookupField fs "description" = none := h _ (by decide)
    have k24 : lookupField fs "body" = none := h _ (by decide)
    have k25 : lookupField fs "value" = none := h _ (by decide)
    constructor
    · simp [getEntryContent, genericEntryContent, nonEmptyStrField, strField,
        numField, hasKey, hasNonNullKey, assigneeName,
        k01, k02, k03, k04, k05, k06, k07, k08, k09, k10, k11, k12, k13,
        k14, k15, k16, k17, k18, k19, k20, k21, k22, k23, k24, k25]
    · simp [getEntryType, genericEntryType, nonEmptyStrField, strField, hasKey,
        k01, k02, k03, k04, k05, k06, k07, k08, k09, k10, k11, k12, k13,
        k14, k15, k16, k17, k18, k19, k20]

/-- Witness for C8: an absent entry and the unrecognized generic entry
`{"unrecognizedKey": "v"}` both extract to the empty string with
category `Event`. -/
theorem content_extraction_total_witness :
    (getEntryContent ⟨"te", none, none, none⟩ = "" ∧
      getEntryType ⟨"te", none, none, none⟩ = "Event") ∧
    (getEntryContent ⟨"", none, none,
        some (.generic [("unrecognizedKey", .str "v")])⟩ = "" ∧
      getEntryType ⟨"", none, none,
        some (.generic [("unrecognizedKey", .str "v")])⟩ = "Event") :=
  ⟨content_extraction_total.1 ⟨"te", none, none, none⟩ rfl,
    content_extraction_total.2.1 [("unrecognizedKey", .str "v")]
      (by intro k hk; fin_cases hk <;> rfl)⟩

/-- Stepping lemma for the exhaustive walk over a page chain: starting at
page `i` of an `N`-page chain with enough fuel, the loop returns the
accumulator extended by the edges of all the remaining pages. -/
theorem reportLoop_chain (fetch : String → Except String (Connection α))
    (pages : Nat → Connection α) (N : Nat)
    (hstep : ∀ i, i + 1 < N → fetch (pages i).pageInfo.endCursor = .ok (pages (i + 1)))
    (hnext : ∀ i, i < N → ((pages i).pageInfo.hasNextPage = true ↔ i + 1 < N)) :
    ∀ fuel i acc, i < N → N - i ≤ fuel →
      reportLoop fetch fuel acc (pages i) =
        some (.ok (acc ++ edgesFrom pages (i + 1) (N - (i + 1)))) := by
  intro fuel
  induction fuel with
  | zero => intro i acc hi hle; omega
  | succ fuel ih =>
    intro i acc hi hle
    by_cases hlt : i + 1 < N
    · have hnp : (pages i).pageInfo.hasNextPage = true := (hnext i hi).mpr hlt
      rw [reportLoop, hnp]
      simp only [if_true]
      rw [hstep i hlt]
      show reportLoop fetch fuel (acc ++ (pages (i + 1)).edges.getD []) (pages (i + 1)) =
        some (.ok (acc ++ edgesFrom pages (i + 1) (N - (i + 1))))
      rw [ih (i + 1) _ hlt (by omega)]
      rw [show N - (i + 1) = (N - (i + 2)) + 1 from by omega, edgesFrom]
      rw [List.append_assoc]
    · have hnp : (pages i).pageInfo.hasNextPage = false := by
        rcases Bool.eq_false_or_eq_true ((pages i).pageInfo.hasNextPage) with h | h
        · exact absurd ((hnext i hi).mp h) hlt
        · exact h
      rw [reportLoop, hnp]
      rw [show N - (i + 1) = 0 from by omega]
      simp [edgesFrom]

/-- The length of a concatenation of `c` pages of `M` edges each. -/
theorem edgesFrom_length (pages : Nat → Connection α) (M : Nat) :
    ∀ c i, (∀ j, j < c → ((pages (i + j)).edges.getD []).length = M) →
      (edgesFrom pages i c).length = c * M := by
  intro c
  induction c with
  | zero => intro i _; simp [edgesFrom]
  | succ c ih =>
    intro i h
    rw [edgesFrom, List.length_append]
    have h0 : ((pages i).edges.getD []).length = M := h 0 (by omega)
    rw [h0]
    rw [ih (i + 1) (fun j hj => by
      rw [show i + 1 + j = i + (j + 1) from by omega]
      exact h (j + 1) (by omega))]
    rw [Nat.succ_mul, Nat.add_comm]

/-- C5: the exhaustive aggregation of `ReportCmd.Run` over a chain of `N`
pages of `M` edges each (all but the last reporting `hasNextPage = true`,
and each next page reachable through the previous page's `endCursor`)
returns exactly the concatenation of the per-page edge sequences in fetch
order, which has `N * M` edges. -/
theorem report_exhaustive_concat (fetch : String → Except String (Connection α))
    (pages : Nat → Connection α) (N M fuel : Nat)
    (hN : 1 ≤ N) (hfuel : N ≤ fuel)
    (h0 : fetch "" = .ok (pages 0))
    (hstep : ∀ i, i + 1 < N → fetch (pages i).pageInfo.endCursor = .ok (pages (i + 1)))
    (hnext : ∀ i, i < N → ((pages i).pageInfo.hasNextPage = true ↔ i + 1 < N))
    (hM : ∀ i, i < N → ((pages i).edges.getD []).length = M) :
    reportRun fetch fuel = some (.ok (edgesFrom pages 0 N)) ∧
    (edgesFrom pages 0 N).length = N * M := by
  obtain ⟨c, rfl⟩ : ∃ c, N = c + 1 := ⟨N - 1, by omega⟩
  constructor
  · unfold reportRun
    rw [h0]
    show reportLoop fetch fuel ((pages 0).edges.getD []) (pages 0) =
      some (.ok (edgesFrom pages 0 (c + 1)))
    rw [reportLoop_chain fetch pages (c + 1) hstep hnext fuel 0
      ((pages 0).edges.getD []) (by omega) (by omega)]
    rw [edgesFrom]
    simp
  · exact edgesFrom_length pages M (c + 1) 0 (fun j hj => by
      rw [show (0 : Nat) + j = j from by omega]
      exact hM j hj)

/-- Witness for C5: a concrete two-page source with one edge per page. -/
theorem report_exhaustive_concat_witness :
    reportRun fetchW 2 = some (.ok (edgesFrom pagesW 0 2)) ∧
    (edgesFrom pagesW 0 2).length = 2 * 1 :=
  report_exhaustive_concat fetchW pagesW 2 1 2 (by omega) (by omega) rfl
    (by
      intro i hi
      have h : i = 0 := by omega
      subst h
      rfl)
    (by
      intro i hi
      interval_cases i <;> simp [pagesW])
    (by
      intro i hi
      interval_cases i <;> simp [pagesW])

/-- C3 (the code at the failing input): when every page reports
`hasNextPage = true` with an empty `endCursor`, the exhaustive walk of
`ReportCmd.Run` never terminates — for every iteration bound the loop is
still running — instead of stopping with the edges collected so far. -/
theorem report_empty_cursor_loops_forever :
    ∀ fuel : Nat, reportRun emptyCursorFetch fuel = none := by
  have key : ∀ fuel acc,
      reportLoop emptyCursorFetch fuel acc ⟨some [], ⟨true, false, "", ""⟩⟩ = none := by
    intro fuel
    induction fuel with
    | zero => intro acc; rfl
    | succ fuel ih =>
      intro acc
      rw [reportLoop]
      simp only [if_true, emptyCursorFetch]
      exact ih _
  intro fuel
  unfold reportRun
  simp only [emptyCursorFetch]
  exact key fuel _

/-- C4 (the code at the failing input): on a source with more than 3
pages, `loadCount` stops after 3 fetched pages and returns a
`threadCountMsg` carrying the sum of the first 3 pages' edge counts and an
empty error field; the only truncation signal is the `+` printed to
stdout (the `true` flag), which is not part of the message delivered to
the caller. -/
theorem loadCount_truncated_sample (fetch : String → Except String (Option (Connection α)))
    (status c1 c2 c3 : String) (p1 p2 p3 : Connection α) (e1 e2 e3 : List α)
    (h0 : fetch "" = .ok (some p1))
    (he1 : p1.edges = some e1) (hn1 : p1.pageInfo.hasNextPage = true)
    (hc1 : p1.pageInfo.endCursor = c1) (hne1 : c1 ≠ "")
    (h1 : fetch c1 = .ok (some p2))
    (he2 : p2.edges = some e2) (hn2 : p2.pageInfo.hasNextPage = true)
    (hc2 : p2.pageInfo.endCursor = c2) (hne2 : c2 ≠ "")
    (h2 : fetch c2 = .ok (some p3))
    (he3 : p3.edges = some e3) (hn3 : p3.pageInfo.hasNextPage = true)
    (hc3 : p3.pageInfo.endCursor = c3) (hne3 : c3 ≠ "") :
    loadCount fetch status =
      (⟨status, e1.length + e2.length + e3.length, ""⟩, true) := by
  simp [loadCount, loadCountLoop, h0, he1, hn1, hc1, hne1, h1, he2, hn2, hc2, hne2,
    h2, he3, hn3, hc3, hne3]

/-- Witness for C4: a concrete source whose first three pages carry 2, 1
and 3 edges and keep advertising further pages. -/
theorem loadCount_truncated_sample_witness :
    loadCount fetchC4 "TODO" = (⟨"TODO", 6, ""⟩, true) :=
  loadCount_truncated_sample fetchC4 "TODO" "a" "b" "c"
    ⟨some [1, 2], ⟨true, false, "", "a"⟩⟩
    ⟨some [3], ⟨true, false, "", "b"⟩⟩
    ⟨some [4, 5, 6], ⟨true, false, "", "c"⟩⟩
    [1, 2] [3] [4, 5, 6]
    rfl rfl rfl rfl (by decide)
    rfl rfl rfl rfl (by decide)
    rfl rfl rfl rfl (by decide)

/-- C10: if the first page fetch succeeds but a later fetch of the
sampling walk fails, `loadCount` stops, discards the error, and returns
the count accumulated so far with an empty error field (and no truncation
print), indistinguishable from an exact, error-free count. -/
theorem loadCount_midwalk_error_discarded
    (fetch : String → Except String (Option (Connection α)))
    (status c1 msg : String) (p1 : Connection α) (e1 : List α)
    (h0 : fetch "" = .ok (some p1))
    (he1 : p1.edges = some e1) (hn1 : p1.pageInfo.hasNextPage = true)
    (hc1 : p1.pageInfo.endCursor = c1) (hne1 : c1 ≠ "")
    (herr : fetch c1 = .error msg) :
    loadCount fetch status = (⟨status, e1.length, ""⟩, false) := by
  simp [loadCount, loadCountLoop, h0, he1, hn1, hc1, hne1, herr]

/-- Witness for C10: a source whose second fetch fails with
`network down`. -/
theorem loadCount_midwalk_error_discarded_witness :
    loadCount fetchC10 "SNOOZED" = (⟨"SNOOZED", 2, ""⟩, false) :=
  loadCount_midwalk_error_discarded fetchC10 "SNOOZED" "a" "network down"
    ⟨some [7, 8], ⟨true, false, "", "a"⟩⟩ [7, 8]
    rfl rfl rfl rfl (by decide) rfl

end Simple
